import Mathlib

/-!
Shallow embedding of the GNSS observation estimation core of INSTINCT
(`src/Navigation/GNSS/Positioning/ObservationEstimator.hpp`) and of the
process-wide time base (`src/util/Time/TimeBase.cpp`).

C++ `double` arithmetic is modelled over the real numbers.  The pluggable
correction providers (troposphere, ionosphere, Sagnac) and the measurement
error model are not part of the sources under verification; following the
architecture they are passed in as a record of functions (`Models`), which
the estimator treats as opaque strategies — exactly how the template code
calls them.
-/

namespace NAV

/-- Three dimensional vector of doubles (Eigen::Vector3d in the source). -/
structure Vec3 where
  x : ℝ
  y : ℝ
  z : ℝ

/-- Componentwise difference of two vectors. -/
def Vec3.sub (a b : Vec3) : Vec3 := ⟨a.x - b.x, a.y - b.y, a.z - b.z⟩

/-- Euclidean dot product. -/
noncomputable def Vec3.dot (a b : Vec3) : ℝ := a.x * b.x + a.y * b.y + a.z * b.z

/-- Euclidean norm (`.norm()` on an Eigen vector). -/
noncomputable def Vec3.norm (a : Vec3) : ℝ := Real.sqrt (a.x ^ 2 + a.y ^ 2 + a.z ^ 2)

/-- Speed of light constant `InsConst<>::C` [m/s]. -/
def InsConstC : ℝ := 299792458

/-- Satellite systems (constellations).  The source enumeration has more
members; a representative closed set suffices, since the estimator only uses
the system as a lookup key. -/
inductive SatelliteSystem
  | GPS
  | GLONASS
  | Galileo
  | BeiDou
deriving DecidableEq

/-- Signal frequencies.  A representative closed subset of the source
enumeration; the estimator only uses a frequency as a lookup key and to
obtain its satellite system. -/
inductive Frequency
  | G01
  | G02
  | R01
  | E01
deriving DecidableEq

/-- System a frequency belongs to (`Frequency::getSatSys()`); each frequency
belongs to exactly one system. -/
def Frequency.getSatSys : Frequency → SatelliteSystem
  | .G01 => .GPS
  | .G02 => .GPS
  | .R01 => .GLONASS
  | .E01 => .Galileo

/-- The observable kinds of `GnssObs` used by the estimator; the source enum
sentinel `ObservationType_COUNT` is not an observable and never keys an
observation map entry. -/
inductive ObservationType
  | Pseudorange
  | Carrier
  | Doppler
deriving DecidableEq, Inhabited

/-- Difference regime under which the observation gets used
(`ObservationEstimator::ObservationDifference`). -/
inductive ObservationDifference
  | NoDifference
  | SingleDifference
  | DoubleDifference
deriving DecidableEq

/-- Value with standard deviation (the `.value` / `.stdDev` pairs of the
receiver clock and bias records). -/
structure UncertainValue where
  value : ℝ
  stdDev : ℝ

/-- Satellite clock bias [s] and drift [s/s] (`recvObs.satClock()`). -/
structure SatClock where
  bias : ℝ
  drift : ℝ

/-- Receiver clock estimate: bias/drift plus per-system time difference
bias/drift (`receiver.recvClk`); the C++ `.at(satSys.toEnumeration())`
array lookup is modelled as a total function on systems. -/
structure ReceiverClock where
  bias : UncertainValue
  drift : UncertainValue
  sysTimeDiffBias : SatelliteSystem → UncertainValue
  sysTimeDiffDrift : SatelliteSystem → UncertainValue

/-- Receiver state (`Receiver<ReceiverType>`): positions, velocity, clock and
per-frequency inter-frequency bias.  `interFrequencyBias` models the C++ map
(`contains`/`at`) as an optional lookup; `insTime` stands for the observation
time `receiver.gnssObs->insTime` handed to the correction providers. -/
structure Receiver where
  e_pos : Vec3
  lla_pos : Vec3
  e_vel : Vec3
  recvClk : ReceiverClock
  interFrequencyBias : Frequency → Option UncertainValue
  insTime : ℝ

/-- Zenith delays and mapping factors returned by
`calcTroposphericDelayAndMapping`. -/
structure ZenithDelay where
  ZHD : ℝ
  ZWD : ℝ
  zhdMappingFactor : ℝ
  zwdMappingFactor : ℝ

/-- Per-observable data: measurement, estimate and measurement variance
(the `obsData` entries mutated by the estimator). -/
structure ObsData where
  measurement : ℝ
  estimate : ℝ
  measVar : ℝ
deriving Inhabited

/-- Cached intermediate correction terms written back into the observation
(`recvObs.terms`). -/
structure CorrectionTerms where
  rho_r_s : ℝ
  tropoZenithDelay : ZenithDelay
  dpsr_T_r_s : ℝ
  dpsr_I_r_s : ℝ
  dpsr_ie_r_s : ℝ

/-- Per-receiver part of one signal's observation (`recvObs`): satellite
position/velocity/clock, geometry, optional CN0, the diagnostic terms and the
map observable → data (modelled as an association list). -/
structure ReceiverObs where
  e_satPos : Vec3
  e_satVel : Vec3
  e_pLOS : Vec3
  satClock : SatClock
  satElevation : ℝ
  satAzimuth : ℝ
  CN0 : Option ℝ
  terms : CorrectionTerms
  obs : List (ObservationType × ObsData)

/-- Per-signal observation: per-receiver records (indexed like the receiver
array), the GLONASS frequency number and the satellite position variance the
navigation data reports (`observation.navData()->calcSatellitePositionVariance()`). -/
structure SatSigObservation where
  recvObs : List ReceiverObs
  freqNum : ℤ
  navSatPosVar : ℝ

/-- Identifier of a satellite signal: frequency plus satellite number. -/
structure SatSigId where
  freq : Frequency
  satNum : ℕ
deriving DecidableEq

/-- Observation container mutated in place by the estimator
(`observations.signals`). -/
structure Observations where
  signals : List (SatSigId × SatSigObservation)

/-- Broadcast ionospheric correction parameters; opaque to the estimator,
only forwarded to the ionosphere provider. -/
structure IonosphericCorrections where
  raw : ℝ

/-- The pluggable strategies the estimator calls: troposphere, ionosphere and
Sagnac corrections, and the GNSS measurement error model
(`_troposphereModels`, `_ionosphereModel`, `_gnssMeasurementErrorModel` with
their free-function entry points). -/
structure Models where
  calcTroposphericDelayAndMapping : ℝ → Vec3 → ℝ → ℝ → ZenithDelay
  calcIonosphericDelay : ℝ → Frequency → ℤ → Vec3 → ℝ → ℝ → IonosphericCorrections → ℝ
  calcSagnacCorrection : Vec3 → Vec3 → ℝ
  calcSagnacRateCorrection : Vec3 → Vec3 → Vec3 → Vec3 → ℝ
  psrMeasErrorVar : SatelliteSystem → ℝ → ℝ → ℝ
  carrierMeasErrorVar : SatelliteSystem → ℝ → ℝ → ℝ
  psrRateMeasErrorVar : Frequency → ℤ → ℝ → ℝ → ℝ
  codeBiasErrorVar : ℝ
  ionoErrorVar : ℝ → Frequency → ℤ → ℝ
  tropoErrorVar : ℝ → ℝ → ℝ

/-- Indicator used for the C++ bool-to-double products such as
`value * (obsDiff != DoubleDifference)`. -/
noncomputable def boolToReal (b : Prop) [Decidable b] : ℝ := if b then 1 else 0

/-- Inter-frequency bias value of a receiver for a frequency:
`receiver.interFrequencyBias.contains(freq) ? receiver.interFrequencyBias.at(freq).value : 0.0`. -/
noncomputable def interFreqBiasValue (receiver : Receiver) (freq : Frequency) : ℝ :=
  match receiver.interFrequencyBias freq with
  | some u => u.value
  | none => 0

/-- Inter-frequency bias variance contribution:
`std::pow(receiver.interFrequencyBias.at(freq).stdDev, 2)` when the map
contains the frequency, otherwise nothing is added. -/
noncomputable def interFreqBiasVar (receiver : Receiver) (freq : Frequency) : ℝ :=
  match receiver.interFrequencyBias freq with
  | some u => u.stdDev ^ 2
  | none => 0

/-- Estimate and baseline variance of one observable: the `switch (obsType)`
of `calcObservationEstimates` (lines 100-167).  `rho_r_s`, `dpsr_T_r_s`,
`dpsr_I_r_s` and `dpsr_ie_r_s` are the per-pair values computed before the
loop over observables. -/
noncomputable def switchObsType (m : Models) (obsDiff : ObservationDifference)
    (freq : Frequency) (freqNum : ℤ) (receiver : Receiver) (ro : ReceiverObs)
    (rho_r_s dpsr_T_r_s dpsr_I_r_s dpsr_ie_r_s : ℝ)
    (obsType : ObservationType) (obsData : ObsData) : ObsData :=
  let satSys := freq.getSatSys
  let cn0 := ro.CN0.getD 1
  match obsType with
  | .Pseudorange =>
      { obsData with
        estimate := rho_r_s
          + dpsr_ie_r_s
          + dpsr_T_r_s
          + dpsr_I_r_s
          + InsConstC
              * (receiver.recvClk.bias.value * boolToReal (obsDiff ≠ .DoubleDifference)
                 - ro.satClock.bias * boolToReal (obsDiff = .NoDifference)
                 + (receiver.recvClk.sysTimeDiffBias satSys).value
                 + interFreqBiasValue receiver freq)
        measVar := m.psrMeasErrorVar satSys ro.satElevation cn0 }
  | .Carrier =>
      { obsData with
        estimate := rho_r_s
          + dpsr_ie_r_s
          + dpsr_T_r_s
          - dpsr_I_r_s
          + InsConstC
              * (receiver.recvClk.bias.value * boolToReal (obsDiff ≠ .DoubleDifference)
                 - ro.satClock.bias * boolToReal (obsDiff = .NoDifference)
                 + (receiver.recvClk.sysTimeDiffBias satSys).value)
        measVar := m.carrierMeasErrorVar satSys ro.satElevation cn0 }
  | .Doppler =>
      { obsData with
        estimate := ro.e_pLOS.dot (ro.e_satVel.sub receiver.e_vel)
          - m.calcSagnacRateCorrection receiver.e_pos ro.e_satPos receiver.e_vel ro.e_satVel
          + InsConstC
              * (receiver.recvClk.drift.value * boolToReal (obsDiff ≠ .DoubleDifference)
                 - ro.satClock.drift * boolToReal (obsDiff = .NoDifference)
                 + (receiver.recvClk.sysTimeDiffDrift satSys).value
                     * boolToReal (obsDiff = .NoDifference))
        measVar := m.psrRateMeasErrorVar freq freqNum ro.satElevation cn0 }

/-- Mode dependent additive variance contributions applied after the switch
(`calcObservationEstimates` lines 172-214). -/
noncomputable def addVariances (m : Models) (obsDiff : ObservationDifference)
    (freq : Frequency) (freqNum : ℤ) (navSatPosVar : ℝ)
    (receiver : Receiver) (ro : ReceiverObs) (dpsr_T_r_s dpsr_I_r_s : ℝ)
    (obsType : ObservationType) (measVar : ℝ) : ℝ :=
  let satSys := freq.getSatSys
  let v1 :=
    if obsDiff = .NoDifference then
      let va :=
        if obsType = .Pseudorange ∨ obsType = .Carrier then
          measVar + navSatPosVar
            + m.ionoErrorVar dpsr_I_r_s freq freqNum
            + m.tropoErrorVar dpsr_T_r_s ro.satElevation
        else measVar
      if obsType = .Pseudorange then
        va + m.codeBiasErrorVar + interFreqBiasVar receiver freq
      else va
    else measVar
  if obsDiff ≠ .DoubleDifference then
    if obsType = .Pseudorange ∨ obsType = .Carrier then
      v1 + InsConstC ^ 2
             * (receiver.recvClk.bias.stdDev ^ 2
                + (receiver.recvClk.sysTimeDiffBias satSys).stdDev ^ 2)
    else if obsType = .Doppler then
      v1 + InsConstC ^ 2
             * (receiver.recvClk.drift.stdDev ^ 2
                + (receiver.recvClk.sysTimeDiffDrift satSys).stdDev ^ 2)
    else v1
  else v1

/-- Full update of one observable entry: switch plus variance additions. -/
noncomputable def processObsEntry (m : Models) (obsDiff : ObservationDifference)
    (freq : Frequency) (freqNum : ℤ) (navSatPosVar : ℝ)
    (receiver : Receiver) (ro : ReceiverObs)
    (rho_r_s dpsr_T_r_s dpsr_I_r_s dpsr_ie_r_s : ℝ)
    (obsType : ObservationType) (obsData : ObsData) : ObsData :=
  let d1 := switchObsType m obsDiff freq freqNum receiver ro
              rho_r_s dpsr_T_r_s dpsr_I_r_s dpsr_ie_r_s obsType obsData
  { d1 with
    measVar := addVariances m obsDiff freq freqNum navSatPosVar receiver ro
                 dpsr_T_r_s dpsr_I_r_s obsType d1.measVar }

/-- Per signal/receiver pair body of the double loop (lines 65-218): compute
range, troposphere, ionosphere and Sagnac terms, store them into `terms`, and
update every observable entry. -/
noncomputable def processRecvObs (m : Models)
    (ionosphericCorrections : IonosphericCorrections)
    (obsDiff : ObservationDifference) (freq : Frequency) (freqNum : ℤ)
    (navSatPosVar : ℝ) (receiver : Receiver) (ro : ReceiverObs) : ReceiverObs :=
  let rho_r_s := Vec3.norm (ro.e_satPos.sub receiver.e_pos)
  let tropo_r_s := m.calcTroposphericDelayAndMapping receiver.insTime receiver.lla_pos
                     ro.satElevation ro.satAzimuth
  let dpsr_T_r_s := tropo_r_s.ZHD * tropo_r_s.zhdMappingFactor
                    + tropo_r_s.ZWD * tropo_r_s.zwdMappingFactor
  let dpsr_I_r_s := m.calcIonosphericDelay receiver.insTime freq freqNum receiver.lla_pos
                      ro.satElevation ro.satAzimuth ionosphericCorrections
  let dpsr_ie_r_s := m.calcSagnacCorrection receiver.e_pos ro.e_satPos
  { ro with
    terms := { rho_r_s := rho_r_s
               tropoZenithDelay := tropo_r_s
               dpsr_T_r_s := dpsr_T_r_s
               dpsr_I_r_s := dpsr_I_r_s
               dpsr_ie_r_s := dpsr_ie_r_s }
    obs := ro.obs.map fun p =>
      (p.1, processObsEntry m obsDiff freq freqNum navSatPosVar receiver ro
              rho_r_s dpsr_T_r_s dpsr_I_r_s dpsr_ie_r_s p.1 p.2) }

/-- The estimator entry point `calcObservationEstimates` (lines 52-220):
iterate over all signals, and for each signal over its per-receiver records
paired with the receiver array by index (`receivers.at(r)`); the `nameId`
argument of the source only feeds log messages and is omitted.  The
observation container is returned updated in place. -/
noncomputable def calcObservationEstimates (m : Models) (observations : Observations)
    (receivers : List Receiver) (ionosphericCorrections : IonosphericCorrections)
    (obsDiff : ObservationDifference) : Observations :=
  { signals := observations.signals.map fun p =>
      (p.1, { p.2 with
              recvObs := List.zipWith
                (fun ro receiver =>
                  processRecvObs m ionosphericCorrections obsDiff p.1.freq
                    p.2.freqNum p.2.navSatPosVar receiver ro)
                p.2.recvObs receivers }) }

/-- Receiver with the per-system time difference bias value at one system
replaced (standard deviation kept). -/
def Receiver.setSysTimeDiffBias (receiver : Receiver) (sys : SatelliteSystem) (b : ℝ) :
    Receiver :=
  { receiver with
    recvClk := { receiver.recvClk with
      sysTimeDiffBias := fun s =>
        if s = sys then { receiver.recvClk.sysTimeDiffBias s with value := b }
        else receiver.recvClk.sysTimeDiffBias s } }

/-- Receiver with the per-system time difference drift value at one system
replaced (standard deviation kept). -/
def Receiver.setSysTimeDiffDrift (receiver : Receiver) (sys : SatelliteSystem) (d : ℝ) :
    Receiver :=
  { receiver with
    recvClk := { receiver.recvClk with
      sysTimeDiffDrift := fun s =>
        if s = sys then { receiver.recvClk.sysTimeDiffDrift s with value := d }
        else receiver.recvClk.sysTimeDiffDrift s } }

/-- Receiver with the inter-frequency bias entry of one frequency replaced. -/
def Receiver.setInterFrequencyBias (receiver : Receiver) (f : Frequency)
    (v : Option UncertainValue) : Receiver :=
  { receiver with
    interFrequencyBias := fun g =>
      if g = f then v else receiver.interFrequencyBias g }

/-- All Doppler estimates of an observation container, per signal and per
receiver, in order. -/
noncomputable def dopplerEstimates (observations : Observations) :
    List (List (List ℝ)) :=
  observations.signals.map fun p =>
    p.2.recvObs.map fun ro =>
      ro.obs.filterMap fun q =>
        if q.1 = ObservationType.Doppler then some q.2.estimate else none

/-- Baseline variance the measurement error model returns for an observable
of a pair, expressed over the pair's own (preserved) fields. -/
noncomputable def baselineVar (m : Models) (freq : Frequency) (freqNum : ℤ)
    (ro : ReceiverObs) : ObservationType → ℝ
  | .Pseudorange => m.psrMeasErrorVar freq.getSatSys ro.satElevation (ro.CN0.getD 1)
  | .Carrier => m.carrierMeasErrorVar freq.getSatSys ro.satElevation (ro.CN0.getD 1)
  | .Doppler => m.psrRateMeasErrorVar freq freqNum ro.satElevation (ro.CN0.getD 1)

/-- Variance composition as the difference-mode table of the specification
(section 4.1) words it: the baseline plus, dependent on the mode, the
satellite-position/ionosphere/troposphere contributions (code and carrier,
NoDifference only), the code-bias and inter-frequency contributions
(code only, NoDifference only) and the receiver-clock contribution
(all but DoubleDifference).  Written from the specification table, to be
compared with the variance the code computes. -/
noncomputable def measVarTableSpec (m : Models) (obsDiff : ObservationDifference)
    (freq : Frequency) (freqNum : ℤ) (navSatPosVar : ℝ)
    (receiver : Receiver) (ro : ReceiverObs) (dpsr_T_r_s dpsr_I_r_s : ℝ)
    (obsType : ObservationType) : ℝ :=
  baselineVar m freq freqNum ro obsType
  + (if obsDiff = .NoDifference ∧ (obsType = .Pseudorange ∨ obsType = .Carrier) then
       navSatPosVar + m.ionoErrorVar dpsr_I_r_s freq freqNum
         + m.tropoErrorVar dpsr_T_r_s ro.satElevation
     else 0)
  + (if obsDiff = .NoDifference ∧ obsType = .Pseudorange then
       m.codeBiasErrorVar + interFreqBiasVar receiver freq
     else 0)
  + (if obsDiff ≠ .DoubleDifference then
       match obsType with
       | .Pseudorange =>
           InsConstC ^ 2 * (receiver.recvClk.bias.stdDev ^ 2
             + (receiver.recvClk.sysTimeDiffBias freq.getSatSys).stdDev ^ 2)
       | .Carrier =>
           InsConstC ^ 2 * (receiver.recvClk.bias.stdDev ^ 2
             + (receiver.recvClk.sysTimeDiffBias freq.getSatSys).stdDev ^ 2)
       | .Doppler =>
           InsConstC ^ 2 * (receiver.recvClk.drift.stdDev ^ 2
             + (receiver.recvClk.sysTimeDiffDrift freq.getSatSys).stdDev ^ 2)
     else 0)

/-- Everything a call of the estimator can see: the observation container it
mutates, the receiver array, the broadcast ionospheric parameters, the model
configuration and the selected difference mode. -/
structure EstimatorState where
  observations : Observations
  receivers : List Receiver
  ionosphericCorrections : IonosphericCorrections
  models : Models
  obsDiff : ObservationDifference

/-- One call of `calcObservationEstimates` as a state transformer: only the
observation container is written. -/
noncomputable def runEstimator (s : EstimatorState) : EstimatorState :=
  { s with
    observations := calcObservationEstimates s.models s.observations s.receivers
      s.ionosphericCorrections s.obsDiff }

/-- Zero vector fixture. -/
def zeroVec : Vec3 := ⟨0, 0, 0⟩

/-- Zero value-with-uncertainty fixture. -/
def zeroUncertain : UncertainValue := ⟨0, 0⟩

/-- Receiver clock with all biases, drifts and uncertainties zero. -/
def zeroReceiverClock : ReceiverClock :=
  { bias := zeroUncertain
    drift := zeroUncertain
    sysTimeDiffBias := fun _ => zeroUncertain
    sysTimeDiffDrift := fun _ => zeroUncertain }

/-- Receiver at the origin with zero velocity, zero clock and no
inter-frequency biases. -/
def zeroReceiver : Receiver :=
  { e_pos := zeroVec
    lla_pos := zeroVec
    e_vel := zeroVec
    recvClk := zeroReceiverClock
    interFrequencyBias := fun _ => none
    insTime := 0 }

/-- Correction providers and error model all returning zero (disabled
variants). -/
def zeroModels : Models :=
  { calcTroposphericDelayAndMapping := fun _ _ _ _ => ⟨0, 0, 0, 0⟩
    calcIonosphericDelay := fun _ _ _ _ _ _ _ => 0
    calcSagnacCorrection := fun _ _ => 0
    calcSagnacRateCorrection := fun _ _ _ _ => 0
    psrMeasErrorVar := fun _ _ _ => 0
    carrierMeasErrorVar := fun _ _ _ => 0
    psrRateMeasErrorVar := fun _ _ _ _ => 0
    codeBiasErrorVar := 0
    ionoErrorVar := fun _ _ _ => 0
    tropoErrorVar := fun _ _ => 0 }

/-- Observable entry with zero measurement, estimate and variance. -/
def zeroObsData : ObsData := ⟨0, 0, 0⟩

/-- Zero diagnostic terms fixture. -/
def zeroTerms : CorrectionTerms := ⟨0, ⟨0, 0, 0, 0⟩, 0, 0, 0⟩

/-- Per-receiver observation fixture: satellite at rest, zero geometry and
clock, carrying all three observables. -/
def zeroRecvObs : ReceiverObs :=
  { e_satPos := zeroVec
    e_satVel := zeroVec
    e_pLOS := zeroVec
    satClock := ⟨0, 0⟩
    satElevation := 0
    satAzimuth := 0
    CN0 := none
    terms := zeroTerms
    obs := [(ObservationType.Pseudorange, zeroObsData),
            (ObservationType.Carrier, zeroObsData),
            (ObservationType.Doppler, zeroObsData)] }

/-- Scenario pair: satellite 20,000,000 m away on the x axis, receiver at
the origin, all velocity and clock terms zero. -/
def scenarioRecvObs : ReceiverObs :=
  { zeroRecvObs with
    e_satPos := ⟨20000000, 0, 0⟩
    e_pLOS := ⟨1, 0, 0⟩ }

/-- Scenario container: one satellite signal, one receiver record. -/
def scenarioObservations : Observations :=
  { signals := [(⟨Frequency.G01, 1⟩, { recvObs := [scenarioRecvObs]
                                       freqNum := 0
                                       navSatPosVar := 0 })] }

/-- Container with one signal and one all-zero receiver record. -/
def zeroObservations : Observations :=
  { signals := [(⟨Frequency.G01, 1⟩, { recvObs := [zeroRecvObs]
                                       freqNum := 0
                                       navSatPosVar := 0 })] }

/-- Receiver with clock bias 1 s and per-system time difference bias 1 s. -/
def biasedReceiver : Receiver :=
  { zeroReceiver with
    recvClk := { zeroReceiverClock with
      bias := ⟨1, 0⟩
      sysTimeDiffBias := fun _ => ⟨1, 0⟩ } }

/-- Satellite record with clock bias 1 s. -/
def biasedRecvObs : ReceiverObs :=
  { zeroRecvObs with satClock := ⟨1, 0⟩ }

/-- Receiver carrying an inter-frequency bias of 1 m for frequency G01. -/
def ifbReceiver : Receiver :=
  zeroReceiver.setInterFrequencyBias Frequency.G01 (some ⟨1, 0⟩)

end NAV

namespace NAV.TimeBase

/-- Global state of the process time base (`TimeBase.cpp`): the stored
current time `currentTime` and the captured steady-clock reference
`currentTimeComputer`.  `InsTime` and `steady_clock::time_point` are
modelled as integers; only their ordering matters here. -/
structure TimeBaseState where
  currentTime : ℤ
  currentTimeComputer : ℤ

/-- `SetCurrentTime(insTime)`: when the new instant is strictly later than
the stored one, capture the steady-clock instant `now` and store the new
time; otherwise only a warning is logged and the state is untouched. -/
def SetCurrentTime (now : ℤ) (insTime : ℤ) (s : TimeBaseState) : TimeBaseState :=
  if insTime > s.currentTime then
    { currentTime := insTime, currentTimeComputer := now }
  else s

/-- Fold of a sequence of `SetCurrentTime` calls, each with its own
steady-clock instant and argument. -/
def runSetCalls (calls : List (ℤ × ℤ)) (s : TimeBaseState) : TimeBaseState :=
  calls.foldl (fun st c => SetCurrentTime c.1 c.2 st) s

end NAV.TimeBase

namespace NAV

/-- C1 counterexample: under `DoubleDifference` the pseudorange estimate does
depend on the per-system time difference bias (so the bias is not excluded),
and under `SingleDifference` the Doppler estimate is unchanged by the
per-system time difference drift (so the drift is not included). -/
theorem sysTimeDiffBias_table_cex :
    (processObsEntry zeroModels ObservationDifference.DoubleDifference Frequency.G01 0 0
        (zeroReceiver.setSysTimeDiffBias SatelliteSystem.GPS 1) zeroRecvObs 0 0 0 0
        ObservationType.Pseudorange zeroObsData).estimate
      ≠ (processObsEntry zeroModels ObservationDifference.DoubleDifference Frequency.G01 0 0
          zeroReceiver zeroRecvObs 0 0 0 0 ObservationType.Pseudorange zeroObsData).estimate
    ∧ (processObsEntry zeroModels ObservationDifference.SingleDifference Frequency.G01 0 0
        (zeroReceiver.setSysTimeDiffDrift SatelliteSystem.GPS 1) zeroRecvObs 0 0 0 0
        ObservationType.Doppler zeroObsData).estimate
      = (processObsEntry zeroModels ObservationDifference.SingleDifference Frequency.G01 0 0
          zeroReceiver zeroRecvObs 0 0 0 0 ObservationType.Doppler zeroObsData).estimate := by
  constructor
  · simp [processObsEntry, switchObsType, boolToReal, interFreqBiasValue,
      Receiver.setSysTimeDiffBias, zeroReceiver, zeroReceiverClock, zeroUncertain,
      zeroRecvObs, zeroObsData, zeroModels, Frequency.getSatSys, InsConstC]
  · simp [processObsEntry, switchObsType, boolToReal,
      Receiver.setSysTimeDiffDrift, zeroReceiver, zeroReceiverClock, zeroUncertain,
      zeroRecvObs, zeroObsData, zeroModels, Frequency.getSatSys]

/-- C1 (amended): for pseudorange and carrier the per-system time difference
bias enters the estimate unconditionally, in all three difference modes (its
contribution is the speed of light times the bias); for Doppler the
per-system time difference drift enters only under `NoDifference` and is
excluded under `SingleDifference` and `DoubleDifference`. -/
theorem sysTimeDiffBias_mode_inclusion
    (m : Models) (obsDiff : ObservationDifference) (freq : Frequency) (freqNum : ℤ)
    (navSatPosVar : ℝ) (receiver : Receiver) (ro : ReceiverObs)
    (rho dT dI dIe : ℝ) (d : ObsData) (b drft : ℝ) :
    ((processObsEntry m obsDiff freq freqNum navSatPosVar
        (receiver.setSysTimeDiffBias freq.getSatSys b) ro rho dT dI dIe
        ObservationType.Pseudorange d).estimate
      - (processObsEntry m obsDiff freq freqNum navSatPosVar
          (receiver.setSysTimeDiffBias freq.getSatSys 0) ro rho dT dI dIe
          ObservationType.Pseudorange d).estimate = InsConstC * b)
    ∧ ((processObsEntry m obsDiff freq freqNum navSatPosVar
        (receiver.setSysTimeDiffBias freq.getSatSys b) ro rho dT dI dIe
        ObservationType.Carrier d).estimate
      - (processObsEntry m obsDiff freq freqNum navSatPosVar
          (receiver.setSysTimeDiffBias freq.getSatSys 0) ro rho dT dI dIe
          ObservationType.Carrier d).estimate = InsConstC * b)
    ∧ ((processObsEntry m obsDiff freq freqNum navSatPosVar
        (receiver.setSysTimeDiffDrift freq.getSatSys drft) ro rho dT dI dIe
        ObservationType.Doppler d).estimate
      - (processObsEntry m obsDiff freq freqNum navSatPosVar
          (receiver.setSysTimeDiffDrift freq.getSatSys 0) ro rho dT dI dIe
          ObservationType.Doppler d).estimate
        = if obsDiff = ObservationDifference.NoDifference then InsConstC * drft else 0) := by
  refine ⟨?_, ?_, ?_⟩ <;>
    cases obsDiff <;>
      simp [processObsEntry, switchObsType, boolToReal, interFreqBiasValue,
        Receiver.setSysTimeDiffBias, Receiver.setSysTimeDiffDrift] <;>
      ring

/-- C4: in every difference mode the inter-frequency bias of the signal's
frequency, when the receiver has one, contributes the speed of light times
its value to the pseudorange estimate, and contributes nothing to the
carrier and Doppler estimates. -/
theorem interFrequencyBias_code_only
    (m : Models) (obsDiff : ObservationDifference) (freq : Frequency) (freqNum : ℤ)
    (navSatPosVar : ℝ) (receiver : Receiver) (ro : ReceiverObs)
    (rho dT dI dIe : ℝ) (d : ObsData) (b s : ℝ) :
    ((processObsEntry m obsDiff freq freqNum navSatPosVar
        (receiver.setInterFrequencyBias freq (some ⟨b, s⟩)) ro rho dT dI dIe
        ObservationType.Pseudorange d).estimate
      - (processObsEntry m obsDiff freq freqNum navSatPosVar
          (receiver.setInterFrequencyBias freq none) ro rho dT dI dIe
          ObservationType.Pseudorange d).estimate = InsConstC * b)
    ∧ ((processObsEntry m obsDiff freq freqNum navSatPosVar
        (receiver.setInterFrequencyBias freq (some ⟨b, s⟩)) ro rho dT dI dIe
        ObservationType.Carrier d).estimate
      - (processObsEntry m obsDiff freq freqNum navSatPosVar
          (receiver.setInterFrequencyBias freq none) ro rho dT dI dIe
          ObservationType.Carrier d).estimate = 0)
    ∧ ((processObsEntry m obsDiff freq freqNum navSatPosVar
        (receiver.setInterFrequencyBias freq (some ⟨b, s⟩)) ro rho dT dI dIe
        ObservationType.Doppler d).estimate
      - (processObsEntry m obsDiff freq freqNum navSatPosVar
          (receiver.setInterFrequencyBias freq none) ro rho dT dI dIe
          ObservationType.Doppler d).estimate = 0) := by
  refine ⟨?_, ?_, ?_⟩ <;>
    simp [processObsEntry, switchObsType, boolToReal, interFreqBiasValue,
      Receiver.setInterFrequencyBias] <;>
    ring

/-- C2 counterexample: with receiver clock bias, satellite clock bias and
per-system bias all 1 s (and everything else zero), the NoDifference
pseudorange estimate minus the SingleDifference one is the negative of the
speed of light times the satellite clock bias, not the positive value the
claim states. -/
theorem difference_mode_cex :
    (processObsEntry zeroModels ObservationDifference.NoDifference Frequency.G01 0 0
        biasedReceiver biasedRecvObs 0 0 0 0 ObservationType.Pseudorange zeroObsData).estimate
      - (processObsEntry zeroModels ObservationDifference.SingleDifference Frequency.G01 0 0
          biasedReceiver biasedRecvObs 0 0 0 0 ObservationType.Pseudorange zeroObsData).estimate
      ≠ InsConstC * biasedRecvObs.satClock.bias := by
  simp [processObsEntry, switchObsType, boolToReal, interFreqBiasValue,
    biasedReceiver, biasedRecvObs, zeroReceiver, zeroReceiverClock, zeroUncertain,
    zeroRecvObs, zeroObsData, zeroModels, Frequency.getSatSys, InsConstC]

/-- C2 (amended): for pseudorange and carrier, with non-zero receiver clock
bias, satellite clock bias and per-system bias, the NoDifference estimate
minus the SingleDifference estimate equals minus the speed of light times
the satellite clock bias (the satellite clock enters subtractively), and the
SingleDifference estimate minus the DoubleDifference estimate equals the
speed of light times the receiver clock bias alone — the per-system bias is
present in all three modes and cancels. -/
theorem difference_mode_identities
    (m : Models) (freq : Frequency) (freqNum : ℤ) (navSatPosVar : ℝ)
    (receiver : Receiver) (ro : ReceiverObs) (rho dT dI dIe : ℝ) (d : ObsData)
    (_hb : receiver.recvClk.bias.value ≠ 0)
    (_hs : ro.satClock.bias ≠ 0)
    (_hp : (receiver.recvClk.sysTimeDiffBias freq.getSatSys).value ≠ 0) :
    ((processObsEntry m ObservationDifference.NoDifference freq freqNum navSatPosVar
        receiver ro rho dT dI dIe ObservationType.Pseudorange d).estimate
      - (processObsEntry m ObservationDifference.SingleDifference freq freqNum navSatPosVar
          receiver ro rho dT dI dIe ObservationType.Pseudorange d).estimate
      = -(InsConstC * ro.satClock.bias))
    ∧ ((processObsEntry m ObservationDifference.SingleDifference freq freqNum navSatPosVar
        receiver ro rho dT dI dIe ObservationType.Pseudorange d).estimate
      - (processObsEntry m ObservationDifference.DoubleDifference freq freqNum navSatPosVar
          receiver ro rho dT dI dIe ObservationType.Pseudorange d).estimate
      = InsConstC * receiver.recvClk.bias.value)
    ∧ ((processObsEntry m ObservationDifference.NoDifference freq freqNum navSatPosVar
        receiver ro rho dT dI dIe ObservationType.Carrier d).estimate
      - (processObsEntry m ObservationDifference.SingleDifference freq freqNum navSatPosVar
          receiver ro rho dT dI dIe ObservationType.Carrier d).estimate
      = -(InsConstC * ro.satClock.bias))
    ∧ ((processObsEntry m ObservationDifference.SingleDifference freq freqNum navSatPosVar
        receiver ro rho dT dI dIe ObservationType.Carrier d).estimate
      - (processObsEntry m ObservationDifference.DoubleDifference freq freqNum navSatPosVar
          receiver ro rho dT dI dIe ObservationType.Carrier d).estimate
      = InsConstC * receiver.recvClk.bias.value) := by
  refine ⟨?_, ?_, ?_, ?_⟩ <;>
    simp [processObsEntry, switchObsType, boolToReal, interFreqBiasValue] <;>
    ring

/-- C2 witness: the amended identities hold at the fixture with all three
biases equal to 1 s. -/
theorem difference_mode_identities_witness :
    ((processObsEntry zeroModels ObservationDifference.NoDifference Frequency.G01 0 0
        biasedReceiver biasedRecvObs 0 0 0 0 ObservationType.Pseudorange zeroObsData).estimate
      - (processObsEntry zeroModels ObservationDifference.SingleDifference Frequency.G01 0 0
          biasedReceiver biasedRecvObs 0 0 0 0 ObservationType.Pseudorange zeroObsData).estimate
      = -(InsConstC * biasedRecvObs.satClock.bias))
    ∧ ((processObsEntry zeroModels ObservationDifference.SingleDifference Frequency.G01 0 0
        biasedReceiver biasedRecvObs 0 0 0 0 ObservationType.Pseudorange zeroObsData).estimate
      - (processObsEntry zeroModels ObservationDifference.DoubleDifference Frequency.G01 0 0
          biasedReceiver biasedRecvObs 0 0 0 0 ObservationType.Pseudorange zeroObsData).estimate
      = InsConstC * biasedReceiver.recvClk.bias.value)
    ∧ ((processObsEntry zeroModels ObservationDifference.NoDifference Frequency.G01 0 0
        biasedReceiver biasedRecvObs 0 0 0 0 ObservationType.Carrier zeroObsData).estimate
      - (processObsEntry zeroModels ObservationDifference.SingleDifference Frequency.G01 0 0
          biasedReceiver biasedRecvObs 0 0 0 0 ObservationType.Carrier zeroObsData).estimate
      = -(InsConstC * biasedRecvObs.satClock.bias))
    ∧ ((processObsEntry zeroModels ObservationDifference.SingleDifference Frequency.G01 0 0
        biasedReceiver biasedRecvObs 0 0 0 0 ObservationType.Carrier zeroObsData).estimate
      - (processObsEntry zeroModels ObservationDifference.DoubleDifference Frequency.G01 0 0
          biasedReceiver biasedRecvObs 0 0 0 0 ObservationType.Carrier zeroObsData).estimate
      = InsConstC * biasedReceiver.recvClk.bias.value) :=
  difference_mode_identities zeroModels Frequency.G01 0 0 biasedReceiver biasedRecvObs
    0 0 0 0 zeroObsData one_ne_zero one_ne_zero one_ne_zero

/-- C5 counterexample: a receiver holding an inter-frequency bias of 1 m for
the signal's frequency, with ionospheric delay 1 m and all other inputs
zero: the pseudorange estimate minus the carrier estimate is 2 plus the
speed of light, not two times the ionospheric delay. -/
theorem iono_sign_cex :
    (processObsEntry zeroModels ObservationDifference.NoDifference Frequency.G01 0 0
        ifbReceiver zeroRecvObs 0 0 1 0 ObservationType.Pseudorange zeroObsData).estimate
      - (processObsEntry zeroModels ObservationDifference.NoDifference Frequency.G01 0 0
          ifbReceiver zeroRecvObs 0 0 1 0 ObservationType.Carrier zeroObsData).estimate
      ≠ 2 * 1 := by
  simp [processObsEntry, switchObsType, boolToReal, interFreqBiasValue,
    ifbReceiver, Receiver.setInterFrequencyBias, zeroReceiver, zeroReceiverClock,
    zeroUncertain, zeroRecvObs, zeroObsData, zeroModels, Frequency.getSatSys, InsConstC]
  norm_num

/-- C5 (amended): for every pair with non-zero ionospheric delay the delay
is added to the pseudorange estimate and subtracted from the carrier
estimate; the pseudorange estimate minus the carrier estimate equals two
times the ionospheric delay plus the speed of light times the receiver's
inter-frequency bias for the frequency — hence exactly two times the delay
whenever that bias is absent or zero. -/
theorem iono_sign_convention
    (m : Models) (obsDiff : ObservationDifference) (freq : Frequency) (freqNum : ℤ)
    (navSatPosVar : ℝ) (receiver : Receiver) (ro : ReceiverObs)
    (rho dT dI dIe : ℝ) (d : ObsData) (_hI : dI ≠ 0) :
    (processObsEntry m obsDiff freq freqNum navSatPosVar receiver ro
        rho dT dI dIe ObservationType.Pseudorange d).estimate
      - (processObsEntry m obsDiff freq freqNum navSatPosVar receiver ro
          rho dT dI dIe ObservationType.Carrier d).estimate
      = 2 * dI + InsConstC * interFreqBiasValue receiver freq := by
  simp [processObsEntry, switchObsType, boolToReal]
  ring

/-- C5 witness: the amended identity at ionospheric delay 1 m with the
bias-free zero receiver, where the difference is exactly 2 m. -/
theorem iono_sign_convention_witness :
    (1 : ℝ) ≠ 0
    ∧ (processObsEntry zeroModels ObservationDifference.NoDifference Frequency.G01 0 0
        zeroReceiver zeroRecvObs 0 0 1 0 ObservationType.Pseudorange zeroObsData).estimate
      - (processObsEntry zeroModels ObservationDifference.NoDifference Frequency.G01 0 0
          zeroReceiver zeroRecvObs 0 0 1 0 ObservationType.Carrier zeroObsData).estimate
      = 2 * 1 + InsConstC * interFreqBiasValue zeroReceiver Frequency.G01 :=
  ⟨one_ne_zero,
   iono_sign_convention zeroModels ObservationDifference.NoDifference Frequency.G01 0 0
     zeroReceiver zeroRecvObs 0 0 1 0 zeroObsData one_ne_zero⟩

/-- C3: the measurement variance the code composes coincides, for every
observable and every difference mode, with the specification's table:
baseline plus satellite-position/ionosphere/troposphere contributions only
under NoDifference (pseudorange and carrier), code-bias and inter-frequency
contributions only under NoDifference (pseudorange), and the receiver-clock
bias respectively drift contribution under NoDifference and
SingleDifference but not under DoubleDifference. -/
theorem measVar_matches_table
    (m : Models) (obsDiff : ObservationDifference) (freq : Frequency) (freqNum : ℤ)
    (navSatPosVar : ℝ) (receiver : Receiver) (ro : ReceiverObs)
    (rho dT dI dIe : ℝ) (obsType : ObservationType) (d : ObsData) :
    (processObsEntry m obsDiff freq freqNum navSatPosVar receiver ro
        rho dT dI dIe obsType d).measVar
      = measVarTableSpec m obsDiff freq freqNum navSatPosVar receiver ro dT dI obsType := by
  cases obsDiff <;> cases obsType <;>
    simp [processObsEntry, switchObsType, addVariances, measVarTableSpec, baselineVar] <;>
    ring

/-- Generic congruence for `List.zipWith` from pointwise equal functions. -/
theorem zipWith_congr_fun {α β γ : Type} (f g : α → β → γ)
    (h : ∀ a b, f a b = g a b) :
    ∀ (l1 : List α) (l2 : List β), List.zipWith f l1 l2 = List.zipWith g l1 l2 := by
  intro l1
  induction l1 with
  | nil => intro l2; simp
  | cons a t ih =>
      intro l2
      cases l2 with
      | nil => simp
      | cons b t2 => simp [h, ih]

/-- Changing the troposphere and ionosphere providers leaves the Doppler
estimate of every observable entry unchanged (it never reads the computed
atmosphere terms nor those providers). -/
theorem doppler_entry_atmosphere_free
    (m : Models) (tropoF : ℝ → Vec3 → ℝ → ℝ → ZenithDelay)
    (ionoF : ℝ → Frequency → ℤ → Vec3 → ℝ → ℝ → IonosphericCorrections → ℝ)
    (obsDiff : ObservationDifference) (freq : Frequency) (freqNum : ℤ)
    (navSatPosVar : ℝ) (receiver : Receiver) (ro : ReceiverObs)
    (rho dT dI dIe rho2 dT2 dI2 dIe2 : ℝ) (d : ObsData) :
    (processObsEntry
        { m with calcTroposphericDelayAndMapping := tropoF, calcIonosphericDelay := ionoF }
        obsDiff freq freqNum navSatPosVar receiver ro rho dT dI dIe
        ObservationType.Doppler d).estimate
      = (processObsEntry m obsDiff freq freqNum navSatPosVar receiver ro
          rho2 dT2 dI2 dIe2 ObservationType.Doppler d).estimate := by
  simp [processObsEntry, switchObsType]

/-- Doppler estimates of one processed pair do not change when the
troposphere and ionosphere providers are swapped. -/
theorem doppler_pair_atmosphere_free
    (m : Models) (tropoF : ℝ → Vec3 → ℝ → ℝ → ZenithDelay)
    (ionoF : ℝ → Frequency → ℤ → Vec3 → ℝ → ℝ → IonosphericCorrections → ℝ)
    (ionoCorr : IonosphericCorrections) (obsDiff : ObservationDifference)
    (freq : Frequency) (freqNum : ℤ) (navSatPosVar : ℝ)
    (receiver : Receiver) (ro : ReceiverObs) :
    ((processRecvObs
        { m with calcTroposphericDelayAndMapping := tropoF, calcIonosphericDelay := ionoF }
        ionoCorr obsDiff freq freqNum navSatPosVar receiver ro).obs.filterMap fun q =>
          if q.1 = ObservationType.Doppler then some q.2.estimate else none)
      = ((processRecvObs m ionoCorr obsDiff freq freqNum navSatPosVar receiver ro).obs.filterMap
          fun q => if q.1 = ObservationType.Doppler then some q.2.estimate else none) := by
  simp only [processRecvObs, List.filterMap_map]
  induction ro.obs with
  | nil => simp
  | cons p t ih =>
      cases hp : p.1 with
      | Pseudorange => simp [Function.comp, hp, ih]
      | Carrier => simp [Function.comp, hp, ih]
      | Doppler =>
          simp [Function.comp, hp, ih]
          exact doppler_entry_atmosphere_free m tropoF ionoF obsDiff freq freqNum
            navSatPosVar receiver ro _ _ _ _ _ _ _ _ p.2

/-- C6: two runs of the estimator that differ only in the troposphere and
ionosphere providers produce identical Doppler estimates for every signal
and receiver — the Doppler estimate does not depend on atmosphere terms. -/
theorem doppler_independent_of_atmosphere
    (m : Models) (tropoF : ℝ → Vec3 → ℝ → ℝ → ZenithDelay)
    (ionoF : ℝ → Frequency → ℤ → Vec3 → ℝ → ℝ → IonosphericCorrections → ℝ)
    (observations : Observations) (receivers : List Receiver)
    (ionoCorr : IonosphericCorrections) (obsDiff : ObservationDifference) :
    dopplerEstimates (calcObservationEstimates
        { m with calcTroposphericDelayAndMapping := tropoF, calcIonosphericDelay := ionoF }
        observations receivers ionoCorr obsDiff)
      = dopplerEstimates (calcObservationEstimates m observations receivers ionoCorr obsDiff) := by
  simp only [dopplerEstimates, calcObservationEstimates, List.map_map]
  refine List.map_congr_left ?_
  intro p _
  simp only [Function.comp, List.map_zipWith]
  exact zipWith_congr_fun _ _
    (fun ro receiver => doppler_pair_atmosphere_free m tropoF ionoF ionoCorr obsDiff
      p.1.freq p.2.freqNum p.2.navSatPosVar receiver ro) p.2.recvObs receivers

/-- Membership in a `zipWith` comes from members of both lists. -/
theorem mem_of_mem_zipWith {α β γ : Type} {f : α → β → γ} {c : γ} :
    ∀ {l1 : List α} {l2 : List β}, c ∈ List.zipWith f l1 l2 →
      ∃ a b, a ∈ l1 ∧ b ∈ l2 ∧ c = f a b := by
  intro l1
  induction l1 with
  | nil => intro l2 h; simp at h
  | cons a t ih =>
      intro l2 h
      cases l2 with
      | nil => simp at h
      | cons b t2 =>
          rcases List.mem_cons.mp h with h | h
          · exact ⟨a, b, List.mem_cons_self a t, List.mem_cons_self b t2, h⟩
          · rcases ih h with ⟨a0, b0, ha, hb, hc⟩
            exact ⟨a0, b0, List.mem_cons_of_mem a ha, List.mem_cons_of_mem b hb, hc⟩

/-- The inter-frequency bias variance contribution is a square or zero. -/
theorem interFreqBiasVar_nonneg (receiver : Receiver) (freq : Frequency) :
    0 ≤ interFreqBiasVar receiver freq := by
  unfold interFreqBiasVar
  cases receiver.interFrequencyBias freq <;> simp [sq_nonneg]

/-- The post-switch variance additions never decrease the variance when the
provider contributions are non-negative. -/
theorem addVariances_le (m : Models) (obsDiff : ObservationDifference)
    (freq : Frequency) (freqNum : ℤ) (navSatPosVar : ℝ)
    (receiver : Receiver) (ro : ReceiverObs) (dT dI : ℝ)
    (obsType : ObservationType) (v : ℝ)
    (hcode : 0 ≤ m.codeBiasErrorVar)
    (hiono : 0 ≤ m.ionoErrorVar dI freq freqNum)
    (htropo : 0 ≤ m.tropoErrorVar dT ro.satElevation)
    (hnav : 0 ≤ navSatPosVar) :
    v ≤ addVariances m obsDiff freq freqNum navSatPosVar receiver ro dT dI obsType v := by
  have hifb := interFreqBiasVar_nonneg receiver freq
  have hclk : 0 ≤ InsConstC ^ 2
      * (receiver.recvClk.bias.stdDev ^ 2
         + (receiver.recvClk.sysTimeDiffBias freq.getSatSys).stdDev ^ 2) := by positivity
  have hdrift : 0 ≤ InsConstC ^ 2
      * (receiver.recvClk.drift.stdDev ^ 2
         + (receiver.recvClk.sysTimeDiffDrift freq.getSatSys).stdDev ^ 2) := by positivity
  cases obsDiff <;> cases obsType <;> simp [addVariances] <;> linarith

/-- The switch assigns exactly the measurement error model baseline as the
initial variance of each observable. -/
theorem switchObsType_measVar (m : Models) (obsDiff : ObservationDifference)
    (freq : Frequency) (freqNum : ℤ) (receiver : Receiver) (ro : ReceiverObs)
    (rho dT dI dIe : ℝ) (obsType : ObservationType) (d : ObsData) :
    (switchObsType m obsDiff freq freqNum receiver ro rho dT dI dIe obsType d).measVar
      = baselineVar m freq freqNum ro obsType := by
  cases obsType <;> simp [switchObsType, baselineVar]

/-- Final variance of an entry: baseline plus the mode dependent additions. -/
theorem processObsEntry_measVar (m : Models) (obsDiff : ObservationDifference)
    (freq : Frequency) (freqNum : ℤ) (navSatPosVar : ℝ)
    (receiver : Receiver) (ro : ReceiverObs) (rho dT dI dIe : ℝ)
    (obsType : ObservationType) (d : ObsData) :
    (processObsEntry m obsDiff freq freqNum navSatPosVar receiver ro
        rho dT dI dIe obsType d).measVar
      = addVariances m obsDiff freq freqNum navSatPosVar receiver ro dT dI obsType
          (baselineVar m freq freqNum ro obsType) := by
  rw [processObsEntry, switchObsType_measVar]

/-- Processing preserves the elevation and CN0 a pair's baseline depends on,
so the baseline of a processed pair is the baseline of the input pair. -/
theorem baselineVar_processRecvObs (m m2 : Models)
    (ionoCorr : IonosphericCorrections) (obsDiff : ObservationDifference)
    (freq : Frequency) (freqNum : ℤ) (navSatPosVar : ℝ)
    (receiver : Receiver) (ro : ReceiverObs) (obsType : ObservationType) :
    baselineVar m freq freqNum
        (processRecvObs m2 ionoCorr obsDiff freq freqNum navSatPosVar receiver ro) obsType
      = baselineVar m freq freqNum ro obsType := by
  cases obsType <;> simp [baselineVar, processRecvObs]

/-- C7: after `calcObservationEstimates` returns, every stored `measVar` is
at least the measurement error model baseline for its observable, provided
the added provider contributions (code bias, ionosphere, troposphere and
satellite position variances) are non-negative: all composition after the
baseline is additive only. -/
theorem measVar_ge_baseline (m : Models) (observations : Observations)
    (receivers : List Receiver) (ionoCorr : IonosphericCorrections)
    (obsDiff : ObservationDifference)
    (p : SatSigId × SatSigObservation) (ro : ReceiverObs)
    (q : ObservationType × ObsData)
    (hcode : 0 ≤ m.codeBiasErrorVar)
    (hiono : ∀ d f n, 0 ≤ m.ionoErrorVar d f n)
    (htropo : ∀ d e, 0 ≤ m.tropoErrorVar d e)
    (hnav : ∀ p0 ∈ observations.signals, 0 ≤ p0.2.navSatPosVar)
    (hp : p ∈ (calcObservationEstimates m observations receivers ionoCorr obsDiff).signals)
    (hro : ro ∈ p.2.recvObs)
    (hq : q ∈ ro.obs) :
    baselineVar m p.1.freq p.2.freqNum ro q.1 ≤ q.2.measVar := by
  rcases List.mem_map.mp hp with ⟨p0, hp0, rfl⟩
  rcases mem_of_mem_zipWith hro with ⟨ro0, receiver, _hro0, _hrecv, rfl⟩
  simp only [processRecvObs] at hq
  rcases List.mem_map.mp hq with ⟨q0, _hq0, rfl⟩
  rw [baselineVar_processRecvObs, processObsEntry_measVar]
  exact addVariances_le m obsDiff p0.1.freq p0.2.freqNum p0.2.navSatPosVar receiver ro0
    _ _ q0.1 _ hcode (hiono _ _ _) (htropo _ _) (hnav p0 hp0)

/-- C7 witness: at the all-zero input the stored pseudorange variance of the
processed pair is bounded below by the (zero) baseline. -/
theorem measVar_ge_baseline_witness :
    baselineVar zeroModels Frequency.G01 0
        (processRecvObs zeroModels ⟨0⟩ ObservationDifference.NoDifference Frequency.G01 0 0
          zeroReceiver zeroRecvObs) ObservationType.Pseudorange
      ≤ ((processRecvObs zeroModels ⟨0⟩ ObservationDifference.NoDifference Frequency.G01 0 0
          zeroReceiver zeroRecvObs).obs.headI).2.measVar :=
  measVar_ge_baseline zeroModels zeroObservations [zeroReceiver] ⟨0⟩
    ObservationDifference.NoDifference
    (⟨Frequency.G01, 1⟩,
      { recvObs := [processRecvObs zeroModels ⟨0⟩ ObservationDifference.NoDifference
          Frequency.G01 0 0 zeroReceiver zeroRecvObs]
        freqNum := 0
        navSatPosVar := 0 })
    (processRecvObs zeroModels ⟨0⟩ ObservationDifference.NoDifference Frequency.G01 0 0
      zeroReceiver zeroRecvObs)
    ((processRecvObs zeroModels ⟨0⟩ ObservationDifference.NoDifference Frequency.G01 0 0
      zeroReceiver zeroRecvObs).obs.headI)
    (le_refl 0) (fun _ _ _ => le_refl 0) (fun _ _ => le_refl 0)
    (by simp [zeroObservations])
    (List.mem_singleton.mpr rfl)
    (List.mem_singleton.mpr rfl)
    (List.mem_cons_self _ _)

/-- Measurements are never modified by an entry update. -/
theorem processObsEntry_measurement (m : Models) (obsDiff : ObservationDifference)
    (freq : Frequency) (freqNum : ℤ) (navSatPosVar : ℝ)
    (receiver : Receiver) (ro : ReceiverObs) (rho dT dI dIe : ℝ)
    (obsType : ObservationType) (d : ObsData) :
    (processObsEntry m obsDiff freq freqNum navSatPosVar receiver ro
        rho dT dI dIe obsType d).measurement = d.measurement := by
  cases obsType <;> simp [processObsEntry, switchObsType]

/-- C9: one estimator call writes only the observation container: the
receiver array, the ionospheric correction parameters, the model
configuration and the difference mode are unchanged, the set keeps exactly
its signal keys, and each per-pair record keeps its satellite
position/velocity, line of sight, satellite clock, elevation, azimuth, CN0
and every raw measurement — only the correction terms, estimates and
variances are (re)written. -/
theorem estimator_frame (s : EstimatorState) :
    (runEstimator s).receivers = s.receivers
    ∧ (runEstimator s).ionosphericCorrections = s.ionosphericCorrections
    ∧ (runEstimator s).models = s.models
    ∧ (runEstimator s).obsDiff = s.obsDiff
    ∧ (runEstimator s).observations.signals.map Prod.fst
        = s.observations.signals.map Prod.fst
    ∧ (∀ (m : Models) (ionoCorr : IonosphericCorrections)
        (obsDiff : ObservationDifference) (freq : Frequency) (freqNum : ℤ)
        (navSatPosVar : ℝ) (receiver : Receiver) (ro : ReceiverObs),
        (processRecvObs m ionoCorr obsDiff freq freqNum navSatPosVar receiver ro).e_satPos
            = ro.e_satPos
        ∧ (processRecvObs m ionoCorr obsDiff freq freqNum navSatPosVar receiver ro).e_satVel
            = ro.e_satVel
        ∧ (processRecvObs m ionoCorr obsDiff freq freqNum navSatPosVar receiver ro).e_pLOS
            = ro.e_pLOS
        ∧ (processRecvObs m ionoCorr obsDiff freq freqNum navSatPosVar receiver ro).satClock
            = ro.satClock
        ∧ (processRecvObs m ionoCorr obsDiff freq freqNum navSatPosVar receiver ro).satElevation
            = ro.satElevation
        ∧ (processRecvObs m ionoCorr obsDiff freq freqNum navSatPosVar receiver ro).satAzimuth
            = ro.satAzimuth
        ∧ (processRecvObs m ionoCorr obsDiff freq freqNum navSatPosVar receiver ro).CN0
            = ro.CN0
        ∧ (processRecvObs m ionoCorr obsDiff freq freqNum navSatPosVar receiver ro).obs.map
              (fun q => (q.1, q.2.measurement))
            = ro.obs.map (fun q => (q.1, q.2.measurement))) := by
  refine ⟨rfl, rfl, rfl, rfl, ?_, ?_⟩
  · simp [runEstimator, calcObservationEstimates, List.map_map]
  · intro m ionoCorr obsDiff freq freqNum navSatPosVar receiver ro
    refine ⟨rfl, rfl, rfl, rfl, rfl, rfl, rfl, ?_⟩
    simp [processRecvObs, List.map_map, Function.comp, processObsEntry_measurement]

/-- C8: for one satellite 20,000,000 m away from the single receiver, with
all velocity, clock, atmosphere and Sagnac terms zero, the computed
pseudorange and carrier estimates are both 20,000,000 m and the Doppler
estimate is 0. -/
theorem scenario_estimates :
    ((calcObservationEstimates zeroModels scenarioObservations [zeroReceiver] ⟨0⟩
        ObservationDifference.NoDifference).signals.map fun p =>
          p.2.recvObs.map fun ro => ro.obs.map fun q => (q.1, q.2.estimate))
      = [[[(ObservationType.Pseudorange, 20000000),
           (ObservationType.Carrier, 20000000),
           (ObservationType.Doppler, 0)]]] := by
  have h : Real.sqrt ((20000000 : ℝ) ^ 2) = 20000000 := Real.sqrt_sq (by norm_num)
  simp [calcObservationEstimates, scenarioObservations, scenarioRecvObs, zeroRecvObs,
    zeroReceiver, zeroReceiverClock, zeroUncertain, zeroModels, zeroObsData, zeroTerms,
    zeroVec, processRecvObs, processObsEntry, switchObsType, boolToReal,
    interFreqBiasValue, Vec3.norm, Vec3.sub, Vec3.dot, Frequency.getSatSys, h]

end NAV

namespace NAV.TimeBase

/-- One `SetCurrentTime` call never decreases the stored time. -/
theorem setCurrentTime_le (now t : ℤ) (s : TimeBaseState) :
    s.currentTime ≤ (SetCurrentTime now t s).currentTime := by
  unfold SetCurrentTime
  split
  · exact le_of_lt (by assumption)
  · exact le_refl _

/-- C10: a `SetCurrentTime` call whose instant is not strictly later than
the stored time leaves the whole state (stored time and captured
steady-clock reference) unchanged; a single call never decreases the stored
time, and across any sequence of calls the stored time is non-decreasing. -/
theorem setCurrentTime_monotone (s : TimeBaseState) (now t : ℤ)
    (calls : List (ℤ × ℤ)) :
    (¬ t > s.currentTime → SetCurrentTime now t s = s)
    ∧ s.currentTime ≤ (SetCurrentTime now t s).currentTime
    ∧ s.currentTime ≤ (runSetCalls calls s).currentTime := by
  refine ⟨?_, setCurrentTime_le now t s, ?_⟩
  · intro h
    simp [SetCurrentTime, h]
  · induction calls generalizing s with
    | nil => exact le_refl _
    | cons c cs ih =>
        exact le_trans (setCurrentTime_le c.1 c.2 s) (ih (SetCurrentTime c.1 c.2 s))

/-- C10 witness: updating the time base holding time 5 with the earlier
instant 3 is a no-op, and a concrete call sequence never lowers the stored
time. -/
theorem setCurrentTime_monotone_witness :
    SetCurrentTime 7 3 ⟨5, 0⟩ = (⟨5, 0⟩ : TimeBaseState)
    ∧ (5 : ℤ) ≤ (runSetCalls [(7, 3), (8, 10)] ⟨5, 0⟩).currentTime :=
  ⟨(setCurrentTime_monotone ⟨5, 0⟩ 7 3 [(7, 3), (8, 10)]).1 (by decide),
   (setCurrentTime_monotone ⟨5, 0⟩ 7 3 [(7, 3), (8, 10)]).2.2⟩

end NAV.TimeBase
